import Mathlib

/-!
Verification of the LibVMI stealth-patch example (`examples/fool-patchguard.c`)
and the Xen altp2m view-manager layer (`libvmi/driver/xen/altp2m.c`).

The C sources are shallowly embedded: pure helpers become Lean functions,
calls into the introspection / hypervisor libraries (whose headers are not
part of the two source files) are represented by oracle environments, and
the observable effects of `main` are collected as an explicit action trace.
Machine integers are modelled as `Nat`; the only arithmetic the embedded
code performs on them (masking, shifting, byte extraction) is written out
explicitly.
-/

namespace LibVmi

/-! ### Constants from the library headers

`events.h`, `libvmi.h` (LibVMI) and `bddisasm.h` are not among the two
source files; the constants below stand for the header values.  The
development only relies on `ND_ACCESS_READ` being the read bit of the
decoder's access mask, on `VMI_MEMACCESS_R` being the read bit of the
event mask, on the response codes being distinct, and on
`VMI_MEMACCESS_N` being the library's "no access" token. -/

def ND_ACCESS_READ : Nat := 1

def MAX_SIZE_X86_INSN : Nat := 15

def VMI_MEMACCESS_N : Nat := 1

def VMI_MEMACCESS_R : Nat := 2

def VMI_MEMACCESS_W : Nat := 4

def VMI_MEMACCESS_X : Nat := 8

def VMI_EVENT_RESPONSE_NONE : Nat := 0

def VMI_EVENT_RESPONSE_SET_EMUL_READ_DATA : Nat := 32

/-! ### Instruction access-size resolver (`mem_access_size_from_insn`) -/

/-- Mnemonic classes of the bddisasm decoder that the example
distinguishes; every mnemonic other than the three `mov` forms is
represented by `ND_INS_OTHER` carrying its decoder code. -/
inductive NdInsClass where
  | ND_INS_MOV
  | ND_INS_MOVZX
  | ND_INS_MOVSXD
  | ND_INS_OTHER (code : Nat)
deriving DecidableEq, Repr

/-- The fields of bddisasm's decoded-instruction record (`INSTRUX`) that
`mem_access_size_from_insn` consults: the memory-access flag mask, the
mnemonic, and the size of operand 0 (the destination).  `Length` is the
encoded instruction length, carried along to distinguish it from the
operand size. -/
structure INSTRUX where
  MemoryAccess : Nat
  Instruction : NdInsClass
  Operand0Size : Nat
  Length : Nat
deriving DecidableEq, Repr

/-- The two failure modes of `mem_access_size_from_insn` (the C function
returns `false` after printing one of two distinct diagnostics). -/
inductive ResolveErr where
  | NotAReadAccess
  | UnsupportedInstruction
deriving DecidableEq, Repr

/-- Embedding of `mem_access_size_from_insn` (fool-patchguard.c:72-100):
reject an instruction whose access mask lacks the read bit, return
`Operands[0].Size` for `MOV`/`MOVZX`/`MOVSXD`, and reject every other
mnemonic. -/
def mem_access_size_from_insn (insn : INSTRUX) : Except ResolveErr Nat :=
  if insn.MemoryAccess &&& ND_ACCESS_READ ≠ ND_ACCESS_READ then
    .error .NotAReadAccess
  else
    match insn.Instruction with
    | .ND_INS_MOVZX => .ok insn.Operand0Size
    | .ND_INS_MOVSXD => .ok insn.Operand0Size
    | .ND_INS_MOV => .ok insn.Operand0Size
    | .ND_INS_OTHER _ => .error .UnsupportedInstruction

/-- The closed set of mnemonics the resolver supports. -/
def supportedMnemonic (c : NdInsClass) : Prop :=
  c = .ND_INS_MOV ∨ c = .ND_INS_MOVZX ∨ c = .ND_INS_MOVSXD

instance (c : NdInsClass) : Decidable (supportedMnemonic c) := by
  unfold supportedMnemonic; infer_instance

/-! ### Emulated-read response and callback data -/

/-- LibVMI's `emul_read_t` as used by the example: a `dont_free` marker, a
byte count `size`, and the data buffer (byte list).  The payload actually
carried by a response is the first `size` bytes of `data`. -/
structure EmulRead where
  dont_free : Nat
  size : Nat
  data : List Nat
deriving DecidableEq, Repr

/-- The bytes an emulated-read response carries: the first `size` bytes of
its buffer. -/
def emulPayload (e : EmulRead) : List Nat := e.data.take e.size

/-- `cb_data_t` (fool-patchguard.c:59-63). -/
structure CbData where
  is64 : Bool
  ntload_driver_entry_addr : Nat
  emul_read : EmulRead
deriving DecidableEq, Repr

/-- The fields of a LibVMI memory event consulted by the callback. -/
structure MemEventInfo where
  out_access : Nat
  gla : Nat
  gfn : Nat
  offset : Nat
deriving DecidableEq, Repr

/-- The event record: the memory-event part plus the faulting vCPU's
instruction pointer (`event->x86_regs->rip`). -/
structure VmiEvent where
  mem_event : MemEventInfo
  rip : Nat
deriving DecidableEq, Repr

/-- Outcome of a `vmi_read_va` call: failure, or success with the number
of bytes actually read and the buffer contents. -/
inductive ReadVaResult where
  | failure
  | success (bytes_read : Nat) (buf : List Nat)
deriving DecidableEq, Repr

/-- Oracle environment for the callback: the result of reading guest
memory at a virtual address (the callback reads `MAX_SIZE_X86_INSN` bytes
at RIP), and the result of `NdDecodeEx` on a buffer in a given mode
(`true` = 64-bit defcode/defdata). -/
structure HandlerEnv where
  read_va : Nat → ReadVaResult
  decode : List Nat → Bool → Option INSTRUX

/-- Embedding of `cb_on_rw_access` (fool-patchguard.c:102-166).  Returns
the event response together with the emulated-read record attached to the
event (`none` when the callback leaves `event->emul_read` unset). -/
def cb_on_rw_access (env : HandlerEnv) (cb_data : CbData) (event : VmiEvent) :
    Nat × Option EmulRead :=
  let rsp := VMI_EVENT_RESPONSE_NONE
  if event.mem_event.out_access &&& VMI_MEMACCESS_R = 0 then
    -- not a read event. skip.
    (rsp, none)
  else
    match env.read_va event.rip with
    | .failure => (rsp, none)
    | .success bytes_read buf =>
      if bytes_read ≠ MAX_SIZE_X86_INSN then (rsp, none)
      else
        match env.decode buf cb_data.is64 with
        | none => (rsp, none)
        | some rip_insn =>
          match mem_access_size_from_insn rip_insn with
          | .error _ => (rsp, none)
          | .ok _access_size =>
            if event.rip = cb_data.ntload_driver_entry_addr then
              (rsp ||| VMI_EVENT_RESPONSE_SET_EMUL_READ_DATA, some cb_data.emul_read)
            else
              (rsp, none)

/-- Little-endian byte decomposition: the `n` low-order bytes of `v`. -/
def toBytesLE : Nat → Nat → List Nat
  | 0, _ => []
  | n + 1, v => v % 256 :: toBytesLE n (v / 256)

theorem toBytesLE_length (n v : Nat) : (toBytesLE n v).length = n := by
  induction n generalizing v with
  | zero => rfl
  | succ n ih => simp [toBytesLE, ih]

/-- The emulated-read record `main` prepares (fool-patchguard.c:354-356):
`dont_free = 1`, `size = sizeof(addr_t) = 8`, and the buffer holds the
eight little-endian bytes of `ntload_driver_addr` (`memcpy` of the 64-bit
value on a little-endian host). -/
def main_emul_read (ntload_driver_addr : Nat) : EmulRead :=
  { dont_free := 1
    size := 8
    data := toBytesLE 8 ntload_driver_addr }

/-- The callback data `main` installs on the event
(fool-patchguard.c:351-358). -/
def mk_cb_data (is64 : Bool) (entry_addr ntload_driver_addr : Nat) : CbData :=
  { is64 := is64
    ntload_driver_entry_addr := entry_addr
    emul_read := main_emul_read ntload_driver_addr }

/-! ### The patch session (`main`, fool-patchguard.c:168-400)

`main` is a straight-line sequence of fallible library calls; every
failure jumps to the `error_exit` label, and the successful path falls
through into the same label.  The embedding threads an oracle environment
for the library calls and records the externally observable actions
(writes, pause/resume, event registration, listening, teardown) as a
trace. -/

/-- The three kernel symbols `main` resolves via `vmi_translate_ksym2v`. -/
inductive Symbol where
  | KeServiceDescriptorTable
  | KiServiceTable
  | NtLoadDriver
deriving DecidableEq, Repr

/-- Externally observable actions of `main`, in program order.  A
`write32 addr val ok` records an attempted `vmi_write_32_va` together
with whether it succeeded. -/
inductive Action where
  | pause (ok : Bool)
  | write32 (addr val : Nat) (ok : Bool)
  | pagecacheFlush
  | registerEvent (gfn : Nat) (ok : Bool)
  | resume (ok : Bool)
  | listen
  | destroy
deriving DecidableEq, Repr

/-- How the event-wait loop (fool-patchguard.c:373-378) ends: either the
signal flag is observed after `listens` successful waits (clean stop), or
a wait fails after `listens` attempts (error abort). -/
inductive LoopOutcome where
  | stopSignal (listens : Nat)
  | listenFailed (listens : Nat)
deriving DecidableEq, Repr

/-- Oracle environment for the library calls `main` performs. -/
structure MainEnv where
  /-- `argc >= 2`: a VM name was supplied. -/
  has_vm_name : Bool
  /-- `vmi_init_complete` outcome. -/
  init_ok : Bool
  /-- `vmi_get_address_width` result (8 on a 64-bit guest). -/
  addr_width : Nat
  /-- `vmi_pause_vm` outcome. -/
  pause_ok : Bool
  /-- `vmi_translate_ksym2v` per symbol. -/
  ksym : Symbol → Option Nat
  /-- `vmi_read_addr_va` at an address. -/
  read_addr_va : Nat → Option Nat
  /-- `vmi_read_32_va` at an address, before the corrupting write. -/
  read_32 : Nat → Option Nat
  /-- The `vmi_read_32_va` reread of the entry after the corrupting write
  (fool-patchguard.c:326); separate from `read_32` because the memory
  state differs once the entry holds the corrupted value. -/
  reread_32 : Option Nat
  /-- `vmi_write_32_va` success, by address and value. -/
  write_32 : Nat → Nat → Bool
  /-- `vmi_get_vcpureg(CR3)` result. -/
  get_cr3 : Option Nat
  /-- `vmi_pagetable_lookup dtb vaddr` result. -/
  pt_lookup : Nat → Nat → Option Nat
  /-- `vmi_register_event` outcome. -/
  register_ok : Bool
  /-- `vmi_resume_vm` outcome. -/
  resume_ok : Bool
  /-- How the event loop ends. -/
  loop : LoopOutcome

/-- Outcome of the SSDT scan loop (fool-patchguard.c:281-306). -/
inductive SearchResult where
  | readFail
  | notFound
  | found (index : Nat) (val : Nat)
deriving DecidableEq, Repr

/-- The scan over `KiServiceTable` entries: read the 32-bit entry at index
`i`, turn it into the syscall handler address (absolute on 32-bit guests,
`table + (entry >> 4)` on 64-bit guests), and stop at the entry matching
`NtLoadDriver`.  `fuel` is the number of remaining indices
(`nb_services - i`). -/
def findLoop (env : MainEnv) (ki_sv_table_addr ntload_driver_addr : Nat)
    (is64 : Bool) : Nat → Nat → SearchResult
  | _, 0 => .notFound
  | i, fuel + 1 =>
    match env.read_32 (ki_sv_table_addr + 4 * i) with
    | none => .readFail
    | some entry_val =>
      let syscall_addr :=
        if is64 then ki_sv_table_addr + entry_val / 16 else entry_val
      if syscall_addr = ntload_driver_addr then .found i entry_val
      else findLoop env ki_sv_table_addr ntload_driver_addr is64 (i + 1) fuel

/-- State of `main` at the `error_exit` label: the actions performed so
far, the `is_corrupted` flag, the patched entry's address and its captured
pre-patch value, and the return code the fall-through would produce. -/
structure SetupResult where
  trace : List Action
  is_corrupted : Bool
  entry_addr : Nat
  true_val : Nat
  retcode : Nat
deriving DecidableEq, Repr

/-- The `error_exit` label block (fool-patchguard.c:382-392): if the
corrupting write went through, attempt to write the captured value back
(its own success is only logged), then resume the VM unconditionally and
destroy the instance. -/
def error_exit (env : MainEnv) (is_corrupted : Bool)
    (entry_addr true_val : Nat) : List Action :=
  (if is_corrupted then
    [Action.write32 entry_addr true_val (env.write_32 entry_addr true_val)]
  else []) ++ [Action.resume env.resume_ok, Action.destroy]

/-- The body of `main` from `vmi_init_complete` up to the `error_exit`
label (fool-patchguard.c:207-381): every `goto error_exit` and the final
fall-through are returns of this function. -/
def setup (env : MainEnv) : SetupResult :=
  if ¬env.init_ok then ⟨[], false, 0, 0, 1⟩
  else
    let is64 := env.addr_width == 8
    if ¬env.pause_ok then ⟨[.pause false], false, 0, 0, 1⟩
    else
      let t0 : List Action := [.pause true]
      match env.ksym .KeServiceDescriptorTable with
      | none => ⟨t0, false, 0, 0, 1⟩
      | some ke_sd_table_addr =>
        match env.ksym .KiServiceTable with
        | none => ⟨t0, false, 0, 0, 1⟩
        | some ki_sv_table_addr =>
          match env.ksym .NtLoadDriver with
          | none => ⟨t0, false, 0, 0, 1⟩
          | some ntload_driver_addr =>
            match env.read_addr_va (ke_sd_table_addr + env.addr_width * 2) with
            | none => ⟨t0, false, 0, 0, 1⟩
            | some nb_services =>
              match findLoop env ki_sv_table_addr ntload_driver_addr is64 0 nb_services with
              | .readFail => ⟨t0, false, 0, 0, 1⟩
              | .notFound => ⟨t0, false, 0, 0, 1⟩
              | .found idx entry_val =>
                let entry_addr := ki_sv_table_addr + 4 * idx
                if ¬env.write_32 entry_addr 0 then
                  ⟨t0 ++ [.write32 entry_addr 0 false], false, entry_addr, entry_val, 1⟩
                else
                  let t1 := t0 ++ [.write32 entry_addr 0 true, .pagecacheFlush]
                  match env.reread_32 with
                  | none => ⟨t1, true, entry_addr, entry_val, 1⟩
                  | some _ =>
                    match env.get_cr3 with
                    | none => ⟨t1, true, entry_addr, entry_val, 1⟩
                    | some cr3 =>
                      let dtb := cr3 &&& 0xFFFFFFFFFFFFF000
                      match env.pt_lookup dtb entry_addr with
                      | none => ⟨t1, true, entry_addr, entry_val, 1⟩
                      | some paddr =>
                        let gfn := paddr / 4096
                        if ¬env.register_ok then
                          ⟨t1 ++ [.registerEvent gfn false], true, entry_addr, entry_val, 1⟩
                        else
                          let t2 := t1 ++ [.registerEvent gfn true]
                          if ¬env.resume_ok then
                            ⟨t2 ++ [.resume false], true, entry_addr, entry_val, 1⟩
                          else
                            match env.loop with
                            | .listenFailed k =>
                              ⟨t2 ++ [.resume true] ++ List.replicate k .listen,
                                true, entry_addr, entry_val, 1⟩
                            | .stopSignal k =>
                              ⟨t2 ++ [.resume true] ++ List.replicate k .listen,
                                true, entry_addr, entry_val, 0⟩

/-- Result of a full run of `main`. -/
structure MainResult where
  trace : List Action
  retcode : Nat
  is_corrupted : Bool
  entry_addr : Nat
  true_val : Nat
deriving DecidableEq, Repr

/-- Embedding of `main` (fool-patchguard.c:168-400): the usage check
returns directly; otherwise the setup phase runs and falls into
`error_exit`. -/
def mainRun (env : MainEnv) : MainResult :=
  if ¬env.has_vm_name then ⟨[], 1, false, 0, 0⟩
  else
    ⟨(setup env).trace ++
        error_exit env (setup env).is_corrupted (setup env).entry_addr
          (setup env).true_val,
      (setup env).retcode, (setup env).is_corrupted, (setup env).entry_addr,
      (setup env).true_val⟩

/-! ### Xen altp2m view manager (`libvmi/driver/xen/altp2m.c`)

Each function extracts the `xc_interface` handle and `domid` from the VM
instance and forwards to one `libxc` wrapper call.  The wrapper results
are oracle fields; the status values `VMI_SUCCESS` / `VMI_FAILURE` are
LibVMI's `status_t`.  Diagnostics printed with `errprint` are collected
so the shape of the surfaced failure can be compared with the returned
status. -/

/-- LibVMI's `status_t`. -/
inductive Status where
  | VMI_SUCCESS
  | VMI_FAILURE
deriving DecidableEq, Repr

/-- `VMI_INVALID_DOMID` (`~0ULL`) truncated to Xen's 16-bit `domid_t`, as
in the comparison `domain_id == (domid_t)VMI_INVALID_DOMID`. -/
def VMI_INVALID_DOMID : Nat := 65535

/-- The parts of the Xen instance each altp2m function reads:
whether `xen_get_xchandle` yields a non-null handle, and the domain id. -/
structure XenVmi where
  xch_valid : Bool
  domain_id : Nat
deriving DecidableEq, Repr

/-- The `libxc` wrapper calls issued by the altp2m layer, with the
arguments the layer passes. -/
inductive XcCall where
  | getinfo (domid : Nat)
  | setmaxmem (domid : Nat) (max_memkb : Nat)
  | altp2mGetDomainState (domid : Nat)
  | altp2mSetDomainState (domid : Nat) (state : Bool)
  | populatePhysmap (domid : Nat)
  | decreaseReservation (domid : Nat)
  | createView (domid : Nat) (default_access : Nat)
  | destroyView (domid : Nat) (idx : Nat)
  | switchView (domid : Nat) (idx : Nat)
  | changeGfn (domid : Nat) (idx old_gfn new_gfn : Nat)
deriving DecidableEq, Repr

/-- Diagnostics the altp2m layer prints to stderr (`errprint`). -/
inductive LogMsg where
  | invalidHandle
  | invalidDomid
  | xcCallRc (rc : Int)
deriving DecidableEq, Repr

/-- Oracle environment for the `libxc` wrapper results. -/
structure AltEnv where
  /-- `xc_domain_getinfo` return value (1 = one domain record filled). -/
  getinfo_rc : Int
  /-- `info.domid` as filled by `xc_domain_getinfo`. -/
  info_domid : Nat
  /-- `info.max_memkb` as filled by `xc_domain_getinfo`. -/
  info_max_memkb : Nat
  /-- `xc_domain_setmaxmem` return code. -/
  setmaxmem_rc : Int
  /-- `xc_altp2m_get_domain_state` return code. -/
  altp2m_get_rc : Int
  /-- The `state` written by `xc_altp2m_get_domain_state`. -/
  altp2m_get_state : Bool
  /-- `xc_altp2m_set_domain_state` return code. -/
  altp2m_set_rc : Int
  /-- `xc_domain_decrease_reservation_exact` return code. -/
  decrease_rc : Int
  /-- `xc_altp2m_create_view` return code. -/
  create_view_rc : Int
  /-- The view index written by `xc_altp2m_create_view`. -/
  create_view_idx : Nat
deriving DecidableEq, Repr

/-- `xen_altp2m_init` (altp2m.c:27-45): query domain info — on a good
answer for this very domain capture `max_memkb` as the baseline, else
capture 0 — then raise the memory ceiling to `~0` (2^64 - 1 as
`uint64_t`); fail only if the ceiling raise fails. -/
def xen_altp2m_init (vmi : XenVmi) (env : AltEnv) :
    Status × Nat × List XcCall :=
  let init_memsize :=
    if env.getinfo_rc = 1 ∧ env.info_domid = vmi.domain_id then
      env.info_max_memkb
    else 0
  let calls := [XcCall.getinfo vmi.domain_id,
                XcCall.setmaxmem vmi.domain_id (2 ^ 64 - 1)]
  if env.setmaxmem_rc < 0 then (.VMI_FAILURE, init_memsize, calls)
  else (.VMI_SUCCESS, init_memsize, calls)

/-- `xen_altp2m_deinit` (altp2m.c:47-56): restore the saved ceiling,
ignoring the hypercall's result. -/
def xen_altp2m_deinit (vmi : XenVmi) (_env : AltEnv) (init_memsize : Nat) :
    Status × List XcCall :=
  (.VMI_SUCCESS, [XcCall.setmaxmem vmi.domain_id init_memsize])

/-- `xen_altp2m_get_domain_state` (altp2m.c:58-79).  Returns the status,
the diagnostics printed, the calls issued, and the `state` out-parameter
(`none` when the hypercall was never reached). -/
def xen_altp2m_get_domain_state (vmi : XenVmi) (env : AltEnv) :
    Status × List LogMsg × List XcCall × Option Bool :=
  if ¬vmi.xch_valid then (.VMI_FAILURE, [.invalidHandle], [], none)
  else if vmi.domain_id = VMI_INVALID_DOMID then
    (.VMI_FAILURE, [.invalidDomid], [], none)
  else
    let calls := [XcCall.altp2mGetDomainState vmi.domain_id]
    if env.altp2m_get_rc ≠ 0 then
      (.VMI_FAILURE, [.xcCallRc env.altp2m_get_rc], calls, some env.altp2m_get_state)
    else (.VMI_SUCCESS, [], calls, some env.altp2m_get_state)

/-- `xen_altp2m_set_domain_state` (altp2m.c:81-102). -/
def xen_altp2m_set_domain_state (vmi : XenVmi) (env : AltEnv) (state : Bool) :
    Status × List LogMsg × List XcCall :=
  if ¬vmi.xch_valid then (.VMI_FAILURE, [.invalidHandle], [])
  else if vmi.domain_id = VMI_INVALID_DOMID then
    (.VMI_FAILURE, [.invalidDomid], [])
  else
    let calls := [XcCall.altp2mSetDomainState vmi.domain_id state]
    if env.altp2m_set_rc ≠ 0 then
      (.VMI_FAILURE, [.xcCallRc env.altp2m_set_rc], calls)
    else (.VMI_SUCCESS, [], calls)

/-- `xen_altp2m_destroy_physical_page` (altp2m.c:124-133): return the
frame to the hypervisor pool, ignoring the hypercall's result. -/
def xen_altp2m_destroy_physical_page (vmi : XenVmi) (_env : AltEnv)
    (_page_addr : Nat) : Status × List XcCall :=
  (.VMI_SUCCESS, [XcCall.decreaseReservation vmi.domain_id])

/-- `xen_altp2m_create_p2m` (altp2m.c:135-156): after the handle and
domid checks, ask the hypervisor for a new view whose default access is
`VMI_MEMACCESS_N`.  Returns the status, the calls issued, and the view
index out-parameter. -/
def xen_altp2m_create_p2m (vmi : XenVmi) (env : AltEnv) :
    Status × List LogMsg × List XcCall × Option Nat :=
  if ¬vmi.xch_valid then (.VMI_FAILURE, [.invalidHandle], [], none)
  else if vmi.domain_id = VMI_INVALID_DOMID then
    (.VMI_FAILURE, [.invalidDomid], [], none)
  else
    let calls := [XcCall.createView vmi.domain_id VMI_MEMACCESS_N]
    if env.create_view_rc ≠ 0 then
      (.VMI_FAILURE, [.xcCallRc env.create_view_rc], calls, none)
    else (.VMI_SUCCESS, [], calls, some env.create_view_idx)

/-! ### Theorems for the access-size resolver (claims C2, C3) -/

/-- Claim C2: for every decoded instruction whose memory access includes a
read, the resolver succeeds exactly when the mnemonic is one of the closed
set plain move / zero-extending move / sign-extending widening move, and
then returns the byte width of the destination operand (operand 0), never
the instruction length; any other mnemonic yields
`UnsupportedInstruction`. -/
theorem spec_c2_resolver_supported_set (insn : INSTRUX)
    (hread : insn.MemoryAccess &&& ND_ACCESS_READ = ND_ACCESS_READ) :
    ((∃ w, mem_access_size_from_insn insn = .ok w) ↔
      supportedMnemonic insn.Instruction)
    ∧ (supportedMnemonic insn.Instruction →
        mem_access_size_from_insn insn = .ok insn.Operand0Size)
    ∧ (¬supportedMnemonic insn.Instruction →
        mem_access_size_from_insn insn = .error .UnsupportedInstruction) := by
  unfold mem_access_size_from_insn supportedMnemonic
  rw [if_neg (by simp [hread])]
  cases insn.Instruction <;> simp

/-- Concrete instantiation of `spec_c2_resolver_supported_set`: a plain
4-byte move with the read bit set resolves to width 4. -/
theorem spec_c2_resolver_supported_set_witness :
    ((⟨1, .ND_INS_MOV, 4, 5⟩ : INSTRUX).MemoryAccess &&& ND_ACCESS_READ
        = ND_ACCESS_READ)
    ∧ mem_access_size_from_insn ⟨1, .ND_INS_MOV, 4, 5⟩ = .ok 4 :=
  ⟨by decide,
    (spec_c2_resolver_supported_set ⟨1, .ND_INS_MOV, 4, 5⟩ (by decide)).2.1
      (Or.inl rfl)⟩

/-- Claim C3: an instruction whose access flags lack the read bit is
rejected with `NotAReadAccess` whatever its mnemonic — the read check
dominates the mnemonic check. -/
theorem spec_c3_not_read_rejected (insn : INSTRUX)
    (h : insn.MemoryAccess &&& ND_ACCESS_READ ≠ ND_ACCESS_READ) :
    mem_access_size_from_insn insn = .error .NotAReadAccess := by
  unfold mem_access_size_from_insn
  rw [if_pos h]

/-- Concrete instantiation of `spec_c3_not_read_rejected`: a write-only
plain move (a supported mnemonic) is still rejected as not-a-read. -/
theorem spec_c3_not_read_rejected_witness :
    ((⟨2, .ND_INS_MOV, 4, 5⟩ : INSTRUX).MemoryAccess &&& ND_ACCESS_READ
        ≠ ND_ACCESS_READ)
    ∧ mem_access_size_from_insn ⟨2, .ND_INS_MOV, 4, 5⟩ = .error .NotAReadAccess :=
  ⟨by decide, spec_c3_not_read_rejected ⟨2, .ND_INS_MOV, 4, 5⟩ (by decide)⟩

/-! ### Theorems for the read-event handler (claims C5, C10, C1) -/

/-- Claim C5: every per-event failure inside the handler — non-read
access, failed instruction fetch, short fetch, decode failure, or a
resolver error (non-read instruction or unsupported mnemonic) — makes the
handler return the no-op response with no emulated data attached. -/
theorem spec_c5_resolver_failure_noop (env : HandlerEnv) (cb_data : CbData)
    (event : VmiEvent)
    (h : event.mem_event.out_access &&& VMI_MEMACCESS_R = 0
       ∨ env.read_va event.rip = .failure
       ∨ (∃ n buf, env.read_va event.rip = .success n buf
            ∧ n ≠ MAX_SIZE_X86_INSN)
       ∨ (∃ buf, env.read_va event.rip = .success MAX_SIZE_X86_INSN buf
            ∧ env.decode buf cb_data.is64 = none)
       ∨ (∃ buf insn e, env.read_va event.rip = .success MAX_SIZE_X86_INSN buf
            ∧ env.decode buf cb_data.is64 = some insn
            ∧ mem_access_size_from_insn insn = .error e)) :
    cb_on_rw_access env cb_data event = (VMI_EVENT_RESPONSE_NONE, none) := by
  unfold cb_on_rw_access
  by_cases ha : event.mem_event.out_access &&& VMI_MEMACCESS_R = 0
  · simp [ha]
  · rcases h with h | h | ⟨n, buf, hr, hn⟩ | ⟨buf, hr, hd⟩ | ⟨buf, insn, e, hr, hd, hres⟩
    · exact absurd h ha
    · simp [ha, h]
    · simp [ha, hr, hn]
    · simp [ha, hr, hd]
    · simp [ha, hr, hd, hres]

/-- Concrete instantiation of `spec_c5_resolver_failure_noop`: a read
event whose instruction decodes to an unsupported mnemonic gets the no-op
response. -/
theorem spec_c5_resolver_failure_noop_witness :
    cb_on_rw_access
      { read_va := fun _ => .success 15 (List.replicate 15 0)
        decode := fun _ _ => some ⟨1, .ND_INS_OTHER 99, 4, 5⟩ }
      (mk_cb_data false 4096 4660)
      ⟨⟨VMI_MEMACCESS_R, 4096, 7, 0⟩, 4096⟩
    = (VMI_EVENT_RESPONSE_NONE, none) :=
  spec_c5_resolver_failure_noop _ _ _
    (Or.inr (Or.inr (Or.inr (Or.inr
      ⟨List.replicate 15 0, ⟨1, .ND_INS_OTHER 99, 4, 5⟩,
        .UnsupportedInstruction, rfl, rfl, rfl⟩))))

/-- Claim C10: if the fixed 15-byte fetch at the faulting RIP fails, or
returns fewer than 15 bytes, the handler answers no-op and attaches no
emulation — whatever the decoder would have said about the bytes that
were read. -/
theorem spec_c10_short_fetch_noop (env : HandlerEnv) (cb_data : CbData)
    (event : VmiEvent)
    (h : env.read_va event.rip = .failure
       ∨ ∃ n buf, env.read_va event.rip = .success n buf
           ∧ n < MAX_SIZE_X86_INSN) :
    cb_on_rw_access env cb_data event = (VMI_EVENT_RESPONSE_NONE, none) := by
  unfold cb_on_rw_access
  by_cases ha : event.mem_event.out_access &&& VMI_MEMACCESS_R = 0
  · simp [ha]
  · rcases h with h | ⟨n, buf, hr, hn⟩
    · simp [ha, h]
    · simp [ha, hr, Nat.ne_of_lt hn]

/-- Concrete instantiation of `spec_c10_short_fetch_noop`: a 10-byte
fetch is refused even though the decode oracle would return a supported
4-byte move for the partial buffer. -/
theorem spec_c10_short_fetch_noop_witness :
    cb_on_rw_access
      { read_va := fun _ => .success 10 (List.replicate 10 0)
        decode := fun _ _ => some ⟨1, .ND_INS_MOV, 4, 5⟩ }
      (mk_cb_data false 4096 4660)
      ⟨⟨VMI_MEMACCESS_R, 4096, 7, 0⟩, 4096⟩
    = (VMI_EVENT_RESPONSE_NONE, none) :=
  spec_c10_short_fetch_noop _ _ _
    (Or.inr ⟨10, List.replicate 10 0, rfl, by decide⟩)

theorem toBytesLE_take (m : Nat) : ∀ n v : Nat, m ≤ n →
    (toBytesLE n v).take m = toBytesLE m v := by
  induction m with
  | zero => intro n v _; simp [toBytesLE]
  | succ m ih =>
    intro n v h
    cases n with
    | zero => omega
    | succ n =>
      simp only [toBytesLE, List.take_succ_cons]
      rw [ih n (v / 256) (by omega)]

/-- Claim C1 fails on the code: for the 32-bit end-to-end scenario of the
spec (`true_value = 0x1234`, a supported plain 4-byte move faulting at the
watched address), the handler does return the emulate-with-supplied-data
response, but its payload is the fixed 8-byte buffer prepared at setup —
not "exactly 4 bytes": the payload is the 8 little-endian bytes of the
NtLoadDriver address, and it differs from the 4-byte encoding of the true
value the claim demands. -/
theorem spec_c1_fixed_width_counterexample :
    (cb_on_rw_access
        { read_va := fun _ => .success 15 (List.replicate 15 0)
          decode := fun _ _ => some ⟨1, .ND_INS_MOV, 4, 5⟩ }
        (mk_cb_data false 4096 4660)
        ⟨⟨VMI_MEMACCESS_R, 4096, 7, 0⟩, 4096⟩).1
      = VMI_EVENT_RESPONSE_SET_EMUL_READ_DATA
    ∧ (cb_on_rw_access
        { read_va := fun _ => .success 15 (List.replicate 15 0)
          decode := fun _ _ => some ⟨1, .ND_INS_MOV, 4, 5⟩ }
        (mk_cb_data false 4096 4660)
        ⟨⟨VMI_MEMACCESS_R, 4096, 7, 0⟩, 4096⟩).2.map emulPayload
      = some [52, 18, 0, 0, 0, 0, 0, 0]
    ∧ toBytesLE 4 4660 = [52, 18, 0, 0]
    ∧ ([52, 18, 0, 0, 0, 0, 0, 0] : List Nat) ≠ [52, 18, 0, 0] := by
  refine ⟨by decide, by decide, by decide, by decide⟩

/-- Claim C1 as amended: whenever a read event's instruction fetch,
decode and access-size resolution all succeed and the faulting RIP equals
the watched entry address, the handler returns the
emulate-with-supplied-data response carrying the fixed emulated-read
record `main` prepared at setup — the 8 little-endian low-order bytes of
the NtLoadDriver address, with `size = 8` — identically for every
resolved access width `w` (4-byte and 1-byte moves alike); the resolved
width never shapes the payload, whose first 4 bytes are the low-order
4 bytes of that address. -/
theorem spec_c1_amended_fixed_buffer (env : HandlerEnv) (cb_data : CbData)
    (event : VmiEvent) (is64 : Bool) (entry_addr drv_addr : Nat)
    (buf : List Nat) (insn : INSTRUX) (w : Nat)
    (hacc : event.mem_event.out_access &&& VMI_MEMACCESS_R ≠ 0)
    (hread : env.read_va event.rip = .success MAX_SIZE_X86_INSN buf)
    (hdec : env.decode buf cb_data.is64 = some insn)
    (hres : mem_access_size_from_insn insn = .ok w)
    (hcb : cb_data = mk_cb_data is64 entry_addr drv_addr)
    (hrip : event.rip = entry_addr) :
    cb_on_rw_access env cb_data event
      = (VMI_EVENT_RESPONSE_SET_EMUL_READ_DATA, some (main_emul_read drv_addr))
    ∧ emulPayload (main_emul_read drv_addr) = toBytesLE 8 drv_addr
    ∧ (emulPayload (main_emul_read drv_addr)).length = 8
    ∧ (emulPayload (main_emul_read drv_addr)).take 4 = toBytesLE 4 drv_addr := by
  have hpay : emulPayload (main_emul_read drv_addr) = toBytesLE 8 drv_addr := by
    unfold emulPayload main_emul_read
    exact List.take_of_length_le (by rw [toBytesLE_length])
  refine ⟨?_, hpay, by rw [hpay, toBytesLE_length],
    by rw [hpay]; exact toBytesLE_take 4 8 drv_addr (by omega)⟩
  rw [hcb] at hdec
  simp only [mk_cb_data] at hdec
  rw [hrip] at hread
  unfold cb_on_rw_access
  rw [hcb]
  simp only [mk_cb_data]
  rw [hrip]
  simp [hacc, hread, hdec, hres, VMI_EVENT_RESPONSE_NONE, MAX_SIZE_X86_INSN]

/-- Concrete instantiation of `spec_c1_amended_fixed_buffer` at the
spec's scenario values. -/
theorem spec_c1_amended_fixed_buffer_witness :
    cb_on_rw_access
      { read_va := fun _ => .success 15 (List.replicate 15 0)
        decode := fun _ _ => some ⟨1, .ND_INS_MOV, 4, 5⟩ }
      (mk_cb_data false 4096 4660)
      ⟨⟨VMI_MEMACCESS_R, 4096, 7, 0⟩, 4096⟩
      = (VMI_EVENT_RESPONSE_SET_EMUL_READ_DATA, some (main_emul_read 4660))
    ∧ emulPayload (main_emul_read 4660) = toBytesLE 8 4660 :=
  ⟨(spec_c1_amended_fixed_buffer
      { read_va := fun _ => .success 15 (List.replicate 15 0)
        decode := fun _ _ => some ⟨1, .ND_INS_MOV, 4, 5⟩ }
      (mk_cb_data false 4096 4660)
      ⟨⟨VMI_MEMACCESS_R, 4096, 7, 0⟩, 4096⟩ false 4096 4660
      (List.replicate 15 0) ⟨1, .ND_INS_MOV, 4, 5⟩ 4
      (by decide) rfl rfl rfl rfl rfl).1,
    (spec_c1_amended_fixed_buffer
      { read_va := fun _ => .success 15 (List.replicate 15 0)
        decode := fun _ _ => some ⟨1, .ND_INS_MOV, 4, 5⟩ }
      (mk_cb_data false 4096 4660)
      ⟨⟨VMI_MEMACCESS_R, 4096, 7, 0⟩, 4096⟩ false 4096 4660
      (List.replicate 15 0) ⟨1, .ND_INS_MOV, 4, 5⟩ 4
      (by decide) rfl rfl rfl rfl rfl).2.1⟩

/-! ### Theorems for the patch session exit path (claim C4) -/

theorem findLoop_found_read (env : MainEnv) (ki nt : Nat) (is64 : Bool) :
    ∀ fuel i idx v : Nat,
      findLoop env ki nt is64 i fuel = .found idx v →
      env.read_32 (ki + 4 * idx) = some v := by
  intro fuel
  induction fuel with
  | zero => intro i idx v h; simp [findLoop] at h
  | succ fuel ih =>
    intro i idx v h
    unfold findLoop at h
    cases hr : env.read_32 (ki + 4 * i) with
    | none => rw [hr] at h; simp at h
    | some entry_val =>
      rw [hr] at h
      simp only at h
      by_cases hc : (if is64 then ki + entry_val / 16 else entry_val) = nt
      · rw [if_pos hc] at h
        simp only [SearchResult.found.injEq] at h
        obtain ⟨rfl, rfl⟩ := h
        exact hr
      · rw [if_neg hc] at h
        exact ih (i + 1) idx v h

theorem corruptedLeaf (env : MainEnv) (t : List Action) (e tv : Nat)
    (hm : Action.write32 e 0 true ∈ t) (hp : env.read_32 e = some tv) :
    ((true : Bool) = true → Action.write32 e 0 true ∈ t ∧ env.read_32 e = some tv)
    ∧ ((true : Bool) = false → ∀ a v b, Action.write32 a v b ∈ t → b = false) :=
  ⟨fun _ => ⟨hm, hp⟩, fun hc => absurd hc (by simp)⟩

theorem nonCorruptLeaf (env : MainEnv) (t : List Action) (e tv : Nat)
    (hall : ∀ a v b, Action.write32 a v b ∈ t → b = false) :
    ((false : Bool) = true → Action.write32 e 0 true ∈ t ∧ env.read_32 e = some tv)
    ∧ ((false : Bool) = false → ∀ a v b, Action.write32 a v b ∈ t → b = false) :=
  ⟨fun hc => absurd hc (by simp), fun _ => hall⟩

/-- The state `main` carries into the `error_exit` label: when the
corrupting write went through, the trace records it as a successful write
of 0 at the entry address and the captured value is the one read from the
entry during the scan; when it did not, every write recorded so far
failed. -/
theorem setup_spec (env : MainEnv) :
    ((setup env).is_corrupted = true →
       Action.write32 (setup env).entry_addr 0 true ∈ (setup env).trace
       ∧ env.read_32 (setup env).entry_addr = some (setup env).true_val)
    ∧ ((setup env).is_corrupted = false →
       ∀ a v b, Action.write32 a v b ∈ (setup env).trace → b = false) := by
  unfold setup
  by_cases h1 : env.init_ok
  case neg => rw [if_pos h1]; simp
  rw [if_neg (not_not_intro h1)]
  by_cases h2 : env.pause_ok
  case neg => rw [if_pos h2]; simp
  rw [if_neg (not_not_intro h2)]
  cases hk1 : env.ksym Symbol.KeServiceDescriptorTable with
  | none => simp
  | some ke =>
  dsimp only
  cases hk2 : env.ksym Symbol.KiServiceTable with
  | none => simp
  | some ki =>
  dsimp only
  cases hk3 : env.ksym Symbol.NtLoadDriver with
  | none => simp
  | some nt =>
  dsimp only
  cases hnb : env.read_addr_va (ke + env.addr_width * 2) with
  | none => simp
  | some nb =>
  dsimp only
  cases hf : findLoop env ki nt (env.addr_width == 8) 0 nb with
  | readFail => simp
  | notFound => simp
  | found idx v =>
  have hprov : env.read_32 (ki + 4 * idx) = some v :=
    findLoop_found_read env ki nt (env.addr_width == 8) nb 0 idx v hf
  dsimp only
  by_cases hw : env.write_32 (ki + 4 * idx) 0
  case neg =>
    rw [if_pos hw]
    refine nonCorruptLeaf env _ _ _ ?_
    intro a v' b hmem
    rcases List.mem_cons.mp hmem with h1 | hmem2
    · exact absurd h1 (by simp)
    · rcases List.mem_cons.mp hmem2 with h2 | h3
      · injection h2 with _ _ hb
      · exact absurd h3 (List.not_mem_nil _)
  rw [if_neg (not_not_intro hw)]
  cases hr2 : env.reread_32 with
  | none => exact corruptedLeaf env _ _ _ (by simp) hprov
  | some cv =>
  dsimp only
  cases hcr3 : env.get_cr3 with
  | none => exact corruptedLeaf env _ _ _ (by simp) hprov
  | some cr3 =>
  dsimp only
  cases hpt : env.pt_lookup (cr3 &&& 0xFFFFFFFFFFFFF000) (ki + 4 * idx) with
  | none => exact corruptedLeaf env _ _ _ (by simp) hprov
  | some paddr =>
  dsimp only
  by_cases hreg : env.register_ok
  case neg =>
    rw [if_pos hreg]
    exact corruptedLeaf env _ _ _ (by simp) hprov
  rw [if_neg (not_not_intro hreg)]
  by_cases hrsm : env.resume_ok
  case neg =>
    rw [if_pos hrsm]
    exact corruptedLeaf env _ _ _ (by simp) hprov
  rw [if_neg (not_not_intro hrsm)]
  cases hloop : env.loop with
  | listenFailed k => exact corruptedLeaf env _ _ _ (by simp) hprov
  | stopSignal k => exact corruptedLeaf env _ _ _ (by simp) hprov

/-- Claim C4: on every exit path of `main`, if the corrupting write
succeeded (`is_corrupted`), the trace ends with a write of the captured
pre-patch value back to the patched entry — whose own success `b` is
unconstrained — followed by the resume call and teardown, and the
successful corrupting write is in the prefix; if the corrupting write did
not succeed, every attempted write in the whole run failed, so no
restoring write is ever performed. -/
theorem spec_c4_restore_on_exit (env : MainEnv) :
    ((mainRun env).is_corrupted = true →
      (∃ pre,
        (mainRun env).trace =
          pre ++ [Action.write32 (mainRun env).entry_addr (mainRun env).true_val
                    (env.write_32 (mainRun env).entry_addr (mainRun env).true_val),
                  Action.resume env.resume_ok, Action.destroy]
        ∧ Action.write32 (mainRun env).entry_addr 0 true ∈ pre)
      ∧ env.read_32 (mainRun env).entry_addr = some (mainRun env).true_val)
    ∧ ((mainRun env).is_corrupted = false →
        ∀ a v b, Action.write32 a v b ∈ (mainRun env).trace → b = false) := by
  obtain ⟨hcor, hncor⟩ := setup_spec env
  unfold mainRun
  by_cases hn : env.has_vm_name
  · rw [if_neg (not_not_intro hn)]
    dsimp only
    constructor
    · intro hc
      obtain ⟨hmem, hread⟩ := hcor hc
      exact ⟨⟨(setup env).trace, by simp [error_exit, hc], hmem⟩, hread⟩
    · intro hc a v b hmem
      rw [List.mem_append] at hmem
      rcases hmem with hmem | hmem
      · exact hncor hc a v b hmem
      · simp [error_exit, hc] at hmem
  · rw [if_pos (by simpa using hn)]
    constructor
    · intro hc; simp at hc
    · intro hc a v b hmem; simp at hmem

/-- An oracle environment under which every library call of `main`
succeeds: a 32-bit guest whose service table starts at 4096 and whose
first entry is the NtLoadDriver address 4096, so the scan finds index 0
with captured value 4096. -/
def c4EnvAllOk : MainEnv :=
  { has_vm_name := true, init_ok := true, addr_width := 4,
    pause_ok := true, ksym := fun _ => some 4096,
    read_addr_va := fun _ => some 1, read_32 := fun _ => some 4096,
    reread_32 := some 0, write_32 := fun _ _ => true, get_cr3 := some 4096,
    pt_lookup := fun _ _ => some 8192, register_ok := true,
    resume_ok := true, loop := .stopSignal 1 }

/-- `c4EnvAllOk` except that every `vmi_write_32_va` fails, so the
corrupting write never goes through. -/
def c4EnvWriteFails : MainEnv :=
  { c4EnvAllOk with write_32 := fun _ _ => false }

/-- Concrete instantiation of `spec_c4_restore_on_exit`, both branches: a
fully successful run restores the entry and resumes before teardown, and
a run whose corrupting write fails never writes anything successfully. -/
theorem spec_c4_restore_on_exit_witness :
    ((mainRun c4EnvAllOk).is_corrupted = true
      ∧ ∃ pre,
          (mainRun c4EnvAllOk).trace =
            pre ++ [Action.write32 (mainRun c4EnvAllOk).entry_addr
                      (mainRun c4EnvAllOk).true_val
                      (c4EnvAllOk.write_32 (mainRun c4EnvAllOk).entry_addr
                        (mainRun c4EnvAllOk).true_val),
                    Action.resume c4EnvAllOk.resume_ok, Action.destroy]
          ∧ Action.write32 (mainRun c4EnvAllOk).entry_addr 0 true ∈ pre)
    ∧ ((mainRun c4EnvWriteFails).is_corrupted = false
      ∧ ∀ a v b, Action.write32 a v b ∈ (mainRun c4EnvWriteFails).trace →
          b = false) :=
  ⟨⟨by decide, ((spec_c4_restore_on_exit c4EnvAllOk).1 (by decide)).1⟩,
    ⟨by decide, (spec_c4_restore_on_exit c4EnvWriteFails).2 (by decide)⟩⟩

/-! ### Theorems for the altp2m view manager (claims C6, C7, C8, C9) -/

/-- Claim C6 fails on the code: `xen_altp2m_init` tolerates a failed
domain-info query.  With a query that reports failure (`getinfo_rc = 0`)
but a succeeding ceiling raise, init returns `VMI_SUCCESS` — the claim
says it must fail — and the captured baseline is 0, not the guest's prior
maximum-memory configuration (2048 here). -/
theorem spec_c6_query_failure_counterexample :
    ((⟨0, 1, 2048, 0, 0, false, 0, 0, 0, 0⟩ : AltEnv).getinfo_rc ≠ 1)
    ∧ (xen_altp2m_init ⟨true, 1⟩
        ⟨0, 1, 2048, 0, 0, false, 0, 0, 0, 0⟩).1 = .VMI_SUCCESS
    ∧ (xen_altp2m_init ⟨true, 1⟩
        ⟨0, 1, 2048, 0, 0, false, 0, 0, 0, 0⟩).2.1 = 0
    ∧ (⟨0, 1, 2048, 0, 0, false, 0, 0, 0, 0⟩ : AltEnv).info_max_memkb = 2048 :=
  ⟨by decide, rfl, rfl, rfl⟩

/-- Claim C6 as amended: `xen_altp2m_init` fails exactly when the
ceiling-raise hypercall fails (negative return); a failed or mismatched
domain-info query is tolerated, with the captured baseline then 0 instead
of the prior maximum-memory configuration; when the query succeeds for
this very domain the prior configuration is captured; and in every case
the ceiling is raised to `~0` (2^64 - 1, effectively unlimited). -/
theorem spec_c6_amended_init (vmi : XenVmi) (env : AltEnv) :
    ((xen_altp2m_init vmi env).1 = .VMI_FAILURE ↔ env.setmaxmem_rc < 0)
    ∧ (xen_altp2m_init vmi env).2.1 =
        (if env.getinfo_rc = 1 ∧ env.info_domid = vmi.domain_id then
          env.info_max_memkb
        else 0)
    ∧ XcCall.setmaxmem vmi.domain_id (2 ^ 64 - 1) ∈
        (xen_altp2m_init vmi env).2.2 := by
  unfold xen_altp2m_init
  by_cases h : env.setmaxmem_rc < 0 <;> simp [h]

/-- Claim C7: the teardown operations `xen_altp2m_deinit` (restore the
memory ceiling) and `xen_altp2m_destroy_physical_page` (return a reserved
frame) issue their hypercall and return `VMI_SUCCESS` for every oracle
environment — in particular when the underlying call fails, since its
return code is never consulted. -/
theorem spec_c7_teardown_best_effort (vmi : XenVmi) (env : AltEnv)
    (init_memsize page_addr : Nat) :
    (xen_altp2m_deinit vmi env init_memsize).1 = .VMI_SUCCESS
    ∧ XcCall.setmaxmem vmi.domain_id init_memsize ∈
        (xen_altp2m_deinit vmi env init_memsize).2
    ∧ (xen_altp2m_destroy_physical_page vmi env page_addr).1 = .VMI_SUCCESS
    ∧ XcCall.decreaseReservation vmi.domain_id ∈
        (xen_altp2m_destroy_physical_page vmi env page_addr).2 :=
  ⟨rfl, by simp [xen_altp2m_deinit], rfl,
    by simp [xen_altp2m_destroy_physical_page]⟩

/-- Claim C8 fails on the code in its distinction part: an invalid-handle
failure and a hypercall-rejected failure surface to the caller as the very
same `VMI_FAILURE` status, for `get_domain_state` and `set_domain_state`
alike — the two kinds differ only in the stderr diagnostic. -/
theorem spec_c8_status_indistinct_counterexample :
    (xen_altp2m_get_domain_state ⟨false, 1⟩
        ⟨1, 1, 0, 0, 5, false, 5, 0, 0, 0⟩).1 = .VMI_FAILURE
    ∧ (xen_altp2m_get_domain_state ⟨true, 1⟩
        ⟨1, 1, 0, 0, 5, false, 5, 0, 0, 0⟩).1 = .VMI_FAILURE
    ∧ (xen_altp2m_get_domain_state ⟨false, 1⟩
          ⟨1, 1, 0, 0, 5, false, 5, 0, 0, 0⟩).1
        = (xen_altp2m_get_domain_state ⟨true, 1⟩
            ⟨1, 1, 0, 0, 5, false, 5, 0, 0, 0⟩).1
    ∧ (xen_altp2m_set_domain_state ⟨false, 1⟩
        ⟨1, 1, 0, 0, 5, false, 5, 0, 0, 0⟩ true).1 = .VMI_FAILURE
    ∧ (xen_altp2m_set_domain_state ⟨true, 1⟩
        ⟨1, 1, 0, 0, 5, false, 5, 0, 0, 0⟩ true).1 = .VMI_FAILURE
    ∧ (xen_altp2m_set_domain_state ⟨false, 1⟩
          ⟨1, 1, 0, 0, 5, false, 5, 0, 0, 0⟩ true).1
        = (xen_altp2m_set_domain_state ⟨true, 1⟩
            ⟨1, 1, 0, 0, 5, false, 5, 0, 0, 0⟩ true).1 :=
  ⟨rfl, rfl, rfl, rfl, rfl, rfl⟩

/-- Claim C8 as amended: `get_domain_state` and `set_domain_state` fail
exactly when the handle or the domain identifier is invalid or the
underlying hypercall returns a nonzero status, and succeed otherwise; the
two failure kinds both surface to the caller as the same `VMI_FAILURE`
status and are distinguished only in the stderr diagnostic (invalid
handle/domid message versus the hypercall's return code). -/
theorem spec_c8_amended_failure_conditions (vmi : XenVmi) (env : AltEnv)
    (state : Bool) :
    ((xen_altp2m_get_domain_state vmi env).1 = .VMI_FAILURE ↔
        (¬vmi.xch_valid ∨ vmi.domain_id = VMI_INVALID_DOMID
          ∨ env.altp2m_get_rc ≠ 0))
    ∧ ((xen_altp2m_set_domain_state vmi env state).1 = .VMI_FAILURE ↔
        (¬vmi.xch_valid ∨ vmi.domain_id = VMI_INVALID_DOMID
          ∨ env.altp2m_set_rc ≠ 0))
    ∧ (¬vmi.xch_valid →
        (xen_altp2m_get_domain_state vmi env).2.1 = [.invalidHandle]
        ∧ (xen_altp2m_set_domain_state vmi env state).2.1 = [.invalidHandle])
    ∧ (vmi.xch_valid → vmi.domain_id ≠ VMI_INVALID_DOMID →
        env.altp2m_get_rc ≠ 0 →
        (xen_altp2m_get_domain_state vmi env).2.1
          = [.xcCallRc env.altp2m_get_rc]) := by
  by_cases h1 : vmi.xch_valid <;>
    by_cases h2 : vmi.domain_id = VMI_INVALID_DOMID <;>
      by_cases h3 : env.altp2m_get_rc = 0 <;>
        by_cases h4 : env.altp2m_set_rc = 0 <;>
          simp [xen_altp2m_get_domain_state, xen_altp2m_set_domain_state,
            h1, h2, h3, h4]

/-- Concrete instantiation of `spec_c8_amended_failure_conditions`: with
a null handle, both calls log the invalid-handle diagnostic. -/
theorem spec_c8_amended_failure_conditions_witness :
    (xen_altp2m_get_domain_state ⟨false, 1⟩
        ⟨1, 1, 0, 0, 5, false, 5, 0, 0, 0⟩).2.1 = [.invalidHandle]
    ∧ (xen_altp2m_set_domain_state ⟨false, 1⟩
        ⟨1, 1, 0, 0, 5, false, 5, 0, 0, 0⟩ true).2.1 = [.invalidHandle] :=
  (spec_c8_amended_failure_conditions ⟨false, 1⟩
    ⟨1, 1, 0, 0, 5, false, 5, 0, 0, 0⟩ true).2.2.1 (by decide)

/-- Claim C9: every view-creation hypercall `xen_altp2m_create_p2m`
issues requests the "no access" default (`VMI_MEMACCESS_N`) for pages not
explicitly remapped — fail-closed, never fail-open — and a successful
create always issued exactly such a call. -/
theorem spec_c9_create_view_no_access (vmi : XenVmi) (env : AltEnv) :
    (∀ d a, XcCall.createView d a ∈ (xen_altp2m_create_p2m vmi env).2.2.1 →
        a = VMI_MEMACCESS_N)
    ∧ ((xen_altp2m_create_p2m vmi env).1 = .VMI_SUCCESS →
        XcCall.createView vmi.domain_id VMI_MEMACCESS_N ∈
          (xen_altp2m_create_p2m vmi env).2.2.1) := by
  by_cases h1 : vmi.xch_valid <;>
    by_cases h2 : vmi.domain_id = VMI_INVALID_DOMID <;>
      by_cases h3 : env.create_view_rc = 0 <;>
        simp [xen_altp2m_create_p2m, h1, h2, h3]

/-- Concrete instantiation of `spec_c9_create_view_no_access`: a
successful create on a valid handle issued the no-access create call. -/
theorem spec_c9_create_view_no_access_witness :
    XcCall.createView 1 VMI_MEMACCESS_N ∈
      (xen_altp2m_create_p2m ⟨true, 1⟩
        ⟨1, 1, 0, 0, 0, false, 0, 0, 0, 7⟩).2.2.1 :=
  (spec_c9_create_view_no_access ⟨true, 1⟩
    ⟨1, 1, 0, 0, 0, false, 0, 0, 0, 7⟩).2 rfl

end LibVmi
